import Mathlib

/-!
Shallow embedding of the peer-to-peer chat system:
  * `src/stun_server.py` — a Flask registry server with a Redis-backed store
    and an in-memory fallback store (`self.peers` dict);
  * `src/peer.py` — the peer node: TCP handshake, per-session send/receive
    flows, and the `self.connections` session table (dict username -> socket).

Timestamps (`datetime.now().isoformat()`) are modelled as natural numbers
(seconds); `timedelta(minutes=30)` is 1800 seconds.  Python dicts are
modelled as insertion-ordered association lists with `dictSet` mirroring
dict assignment (replace in place, else append), `dictGet` mirroring
lookup and `dictDel` mirroring `del`.
-/

/-- Python-dict lookup: first binding of the key. -/
def dictGet {α : Type} : List (String × α) → String → Option α
  | [], _ => none
  | e :: rest, k => if e.1 = k then some e.2 else dictGet rest k

/-- Python-dict assignment: replace the binding in place, else append. -/
def dictSet {α : Type} : List (String × α) → String → α → List (String × α)
  | [], k, v => [(k, v)]
  | e :: rest, k, v => if e.1 = k then (k, v) :: rest else e :: dictSet rest k v

/-- Python-dict `del`: drop every binding of the key. -/
def dictDel {α : Type} : List (String × α) → String → List (String × α)
  | [], _ => []
  | e :: rest, k => if e.1 = k then dictDel rest k else e :: dictDel rest k

theorem dictGet_dictSet_self {α : Type} (d : List (String × α)) (k : String) (v : α) :
    dictGet (dictSet d k v) k = some v := by
  induction d with
  | nil => simp [dictGet, dictSet]
  | cons e rest ih =>
    by_cases h : e.1 = k
    · simp [dictSet, dictGet, h]
    · simp [dictSet, dictGet, h, ih]

theorem dictGet_dictSet_ne {α : Type} (d : List (String × α)) (k k' : String) (v : α)
    (h : k' ≠ k) : dictGet (dictSet d k v) k' = dictGet d k' := by
  induction d with
  | nil => simp [dictGet, dictSet, Ne.symm h]
  | cons e rest ih =>
    by_cases he : e.1 = k
    · subst he
      simp [dictSet, dictGet, Ne.symm h, fun hh : e.1 = k' => h (hh ▸ rfl)]
    · simp [dictSet, dictGet, he]
      by_cases he' : e.1 = k'
      · simp [he']
      · simp [he', ih]

theorem dictGet_dictDel_self {α : Type} (d : List (String × α)) (k : String) :
    dictGet (dictDel d k) k = none := by
  induction d with
  | nil => simp [dictGet, dictDel]
  | cons e rest ih =>
    by_cases h : e.1 = k
    · simp [dictDel, h, ih]
    · simp [dictDel, dictGet, h, ih]

theorem dictSet_keys {α : Type} (d : List (String × α)) (k : String) (v : α) :
    (dictSet d k v).map Prod.fst =
      if k ∈ d.map Prod.fst then d.map Prod.fst else d.map Prod.fst ++ [k] := by
  induction d with
  | nil => simp [dictSet]
  | cons e rest ih =>
    by_cases h : e.1 = k
    · simp [dictSet, h]
    · simp [dictSet, h, ih]
      by_cases hm : k ∈ rest.map Prod.fst
      · simp [hm, show ¬ k = e.1 from fun hh => h hh.symm]
      · simp [hm, show ¬ k = e.1 from fun hh => h hh.symm]

theorem dictSet_nodup_keys {α : Type} (d : List (String × α)) (k : String) (v : α)
    (h : (d.map Prod.fst).Nodup) : ((dictSet d k v).map Prod.fst).Nodup := by
  rw [dictSet_keys]
  by_cases hm : k ∈ d.map Prod.fst
  · simpa [hm] using h
  · simp only [hm, if_false]
    exact List.Nodup.append h (List.nodup_singleton k) (by simpa using hm)

/-! ## src/stun_server.py — data model and the two stores -/

/-- The peer record built by `STUNServer.register_peer` (stun_server.py:40-47). -/
structure PeerInfo where
  username : String
  ip_address : String
  port : Nat
  status : String
  last_seen : Nat
  registered_at : Nat
deriving Repr, DecidableEq

/-- The in-memory store `self.peers` (a Python dict, stun_server.py:32). -/
abbrev MemStore := List (String × PeerInfo)

/-- The Redis store: the `peer:<username>` hashes and the `online_peers` set
(modelled as association list and duplicate-free list; the 1-hour key TTL of
stun_server.py:53 is a real-time effect outside the transition model). -/
structure RedisStore where
  hashes : List (String × PeerInfo)
  online : List String
deriving Repr, DecidableEq

/-- Redis `SADD`: add the member unless present. -/
def sadd (l : List String) (u : String) : List String :=
  if u ∈ l then l else l ++ [u]

/-- Redis `SREM`: remove the member. -/
def srem (l : List String) (u : String) : List String :=
  l.filter (fun x => x != u)

/-- The storage operations of `STUNServer`; the Flask endpoints call them
through `stun_server`, and each has a Redis branch and an in-memory branch. -/
structure StoreOps (S : Type) where
  register_peer : S → String → String → Nat → Nat → PeerInfo × S
  get_all_peers : S → List PeerInfo
  get_peer_info : S → String → Option PeerInfo
  update_peer_status : S → String → String → Nat → S

/-- The in-memory branches (stun_server.py: 55-57, 72-73, 83-84, and the
absence of an in-memory branch in `update_peer_status`, 86-97: the method
body is a single `if self.redis_client:` block, so with in-memory storage it
does nothing). -/
def memOps : StoreOps MemStore where
  register_peer s u ip port now :=
    let info : PeerInfo := ⟨u, ip, port, "online", now, now⟩
    (info, dictSet s u info)
  get_all_peers s := s.map Prod.snd
  get_peer_info s u := dictGet s u
  update_peer_status s _ _ _ := s

/-- The Redis branches (stun_server.py: 49-54, 63-71, 77-82, 88-97).
`update_peer_status` checks EXISTS, then HSETs only `status` and
`last_seen` and adjusts the `online_peers` set. -/
def redisOps : StoreOps RedisStore where
  register_peer s u ip port now :=
    let info : PeerInfo := ⟨u, ip, port, "online", now, now⟩
    (info, ⟨dictSet s.hashes u info, sadd s.online u⟩)
  get_all_peers s := s.online.filterMap (fun u => dictGet s.hashes u)
  get_peer_info s u := dictGet s.hashes u
  update_peer_status s u status now :=
    match dictGet s.hashes u with
    | none => s
    | some p =>
      let p2 : PeerInfo := { p with status := status, last_seen := now }
      if status = "online" then ⟨dictSet s.hashes u p2, sadd s.online u⟩
      else ⟨dictSet s.hashes u p2, srem s.online u⟩

/-- One pass of the body of `cleanup_old_peers` (stun_server.py:99-117) on the
in-memory store: drop every record strictly older than 30 minutes (1800 s);
with Redis the pass does nothing (`pass`, line 106). -/
def cleanup_old_peers_sweep (s : MemStore) (now : Nat) : MemStore :=
  s.filter (fun e => !(now - e.2.last_seen > 1800))

/-! ## src/stun_server.py — Flask endpoint handlers

A request body is `none` when `request.get_json()` has nothing to parse; in
the code that raises inside the `try:` block and the catch-all
`except Exception` answers 500.  A missing key is an absent field. -/

/-- JSON body of POST /register. -/
structure RegisterBody where
  username : Option String
  ip_address : Option String
  port : Option Nat
deriving Repr, DecidableEq

/-- JSON body of POST /heartbeat and POST /unregister. -/
structure NameBody where
  username : Option String
deriving Repr, DecidableEq

/-- The `/register` endpoint (stun_server.py:123-167): validate the three
required fields (400 on a missing one), then either refresh an existing
record via `update_peer_status` and answer 200 with the record fetched
BEFORE the refresh, or create a new record and answer 201. -/
def registerHandler {S : Type} (ops : StoreOps S) (s : S)
    (body : Option RegisterBody) (now : Nat) : (Nat × Option PeerInfo) × S :=
  match body with
  | none => ((500, none), s)
  | some data =>
    match data.username with
    | none => ((400, none), s)
    | some u =>
      match data.ip_address with
      | none => ((400, none), s)
      | some ip =>
        match data.port with
        | none => ((400, none), s)
        | some port =>
          match ops.get_peer_info s u with
          | some existing => ((200, some existing), ops.update_peer_status s u "online" now)
          | none =>
            let r := ops.register_peer s u ip port now
            ((201, some r.1), r.2)

/-- The `/heartbeat` endpoint (stun_server.py:224-247): `data.get('username')`
is falsy (absent or empty) -> 400, else `update_peer_status(username)` and 200. -/
def heartbeatHandler {S : Type} (ops : StoreOps S) (s : S)
    (body : Option NameBody) (now : Nat) : Nat × S :=
  match body with
  | none => (500, s)
  | some data =>
    match data.username with
    | none => (400, s)
    | some u => if u = "" then (400, s) else (200, ops.update_peer_status s u "online" now)

/-- The `/unregister` endpoint (stun_server.py:249-272): like heartbeat but
`update_peer_status(username, 'offline')`. -/
def unregisterHandler {S : Type} (ops : StoreOps S) (s : S)
    (body : Option NameBody) (now : Nat) : Nat × S :=
  match body with
  | none => (500, s)
  | some data =>
    match data.username with
    | none => (400, s)
    | some u => if u = "" then (400, s) else (200, ops.update_peer_status s u "offline" now)

/-- The `/peers` endpoint (stun_server.py:169-190): filter the stored records
on `status == 'online'` and answer 200 with `count` and the list. -/
def peersHandler {S : Type} (ops : StoreOps S) (s : S) : Nat × Nat × List PeerInfo :=
  let online_peers := (ops.get_all_peers s).filter (fun p => p.status == "online")
  (200, online_peers.length, online_peers)

/-- The `/peerinfo` endpoint (stun_server.py:192-222). -/
def peerinfoHandler {S : Type} (ops : StoreOps S) (s : S)
    (username : Option String) : Nat × Option PeerInfo :=
  match username with
  | none => (400, none)
  | some u =>
    if u = "" then (400, none)
    else
      match ops.get_peer_info s u with
      | none => (404, none)
      | some p => (200, some p)

/-- A client-visible write operation with a well-formed body. -/
inductive ClientOp where
  | reg (u ip : String) (port : Nat)
  | hb (u : String)
  | unreg (u : String)
deriving Repr, DecidableEq

/-- State effect of one write request at time `now`. -/
def applyOp {S : Type} (ops : StoreOps S) (s : S) (op : ClientOp) (now : Nat) : S :=
  match op with
  | .reg u ip port => (registerHandler ops s (some ⟨some u, some ip, some port⟩) now).2
  | .hb u => (heartbeatHandler ops s (some ⟨some u⟩) now).2
  | .unreg u => (unregisterHandler ops s (some ⟨some u⟩) now).2

/-- State effect of a timed sequence of write requests. -/
def applyOps {S : Type} (ops : StoreOps S) (s : S) (l : List (ClientOp × Nat)) : S :=
  l.foldl (fun st p => applyOp ops st p.1 p.2) s

/-! ## src/peer.py — session table, handshake and per-session flows

`self.connections` is a Python dict mapping the remote username to its
socket; a socket is identified here by a `Nat` id, and its closed flag is
carried separately where a claim needs it. -/

/-- The session table `self.connections` (peer.py:26). -/
abbrev Connections := List (String × Nat)

/-- `socket.close()`: marks the socket closed; on an already-closed Python
socket a second `close()` is a no-op that raises nothing. -/
def socketClose (_closed : Bool) : Bool := true

/-- Outcome of the dial seen by the initiator (peer.py:269-292): the decoded
response type, or a transport failure before any response. -/
inductive DialResult where
  | accepted
  | rejected
  | timeout
  | refused
deriving Repr, DecidableEq

/-- The responder side `handle_incoming_connection` on a `connect_request`
(peer.py:102-130): the user decision drives the reply; on accept the socket
is stored under the requester's username (dict assignment, so an existing
entry for that username is replaced, never duplicated); on reject the
responder closes its socket and stores nothing.  Returns (reply sent, new
session table, responder-socket closed flag). -/
def handle_incoming_connection (c : Connections) (fromU : String)
    (userAccepts : Bool) (sid : Nat) : DialResult × Connections × Bool :=
  if userAccepts then (DialResult.accepted, dictSet c fromU sid, false)
  else (DialResult.rejected, c, true)

/-- The initiator side `connect_to_peer` (peer.py:233-296): unknown target ->
False before any socket exists; target already in `self.connections` ->
early return True, no handshake; otherwise dial and act on the outcome:
accepted stores the socket, rejected closes it (peer.py:283), timeout closes
it (peer.py:288), ConnectionRefusedError returns without closing
(peer.py:290-292).  Returns (result, new session table, dial-socket closed
flag). -/
def connect_to_peer (c : Connections) (target : String) (found : Bool)
    (outcome : DialResult) (sid : Nat) : Bool × Connections × Bool :=
  if found = false then (false, c, false)
  else if (dictGet c target).isSome then (true, c, false)
  else
    match outcome with
    | .accepted => (true, dictSet c target sid, false)
    | .rejected => (false, c, true)
    | .timeout => (false, c, true)
    | .refused => (false, c, false)

/-- Why the receive loop of `chat_with_peer` stops (peer.py:302-328). -/
inductive RecvExit where
  | emptyData
  | disconnectMsg
  | connLost
  | recvError
  | loopCond
deriving Repr, DecidableEq

/-- The code after the receive loop (peer.py:330-333) runs on EVERY exit
cause: delete the session entry if present and close the socket. -/
def receive_messages_cleanup (c : Connections) (peerU : String)
    (sockClosed : Bool) (_cause : RecvExit) : Connections × Bool :=
  (dictDel c peerU, socketClose sockClosed)

/-- Why the send loop of `chat_with_peer` stops (peer.py:340-372). -/
inductive SendExit where
  | exitCommand
  | sendError
  | loopCond
deriving Repr, DecidableEq

/-- Session teardown performed by the send flow (peer.py:344-357, 370-372):
only the `/exit` branch deletes the entry and closes the socket; a send
exception and a false loop condition just leave the loop with no cleanup. -/
def send_messages_cleanup (c : Connections) (peerU : String)
    (sockClosed : Bool) (cause : SendExit) : Connections × Bool :=
  match cause with
  | .exitCommand => (dictDel c peerU, socketClose sockClosed)
  | .sendError => (c, sockClosed)
  | .loopCond => (c, sockClosed)

/-! ## Claims about the registry server -/

/-- Claim C1, counterexample: register "alice" at address 1.1.1.1:1000, then
re-register at 2.2.2.2:2000; with BOTH stores the lookup afterwards still
answers 1.1.1.1 — `update_peer_status` never touches the address, so lookup
reflects the FIRST register, not the last as the claim states. -/
theorem claim1_counterexample :
    ((memOps.get_peer_info
        (applyOps memOps [] [(ClientOp.reg "alice" "1.1.1.1" 1000, 0),
                             (ClientOp.reg "alice" "2.2.2.2" 2000, 50)])
        "alice").map PeerInfo.ip_address = some "1.1.1.1")
    ∧ ((redisOps.get_peer_info
        (applyOps redisOps ⟨[], []⟩ [(ClientOp.reg "alice" "1.1.1.1" 1000, 0),
                                     (ClientOp.reg "alice" "2.2.2.2" 2000, 50)])
        "alice").map PeerInfo.ip_address = some "1.1.1.1")
    ∧ ¬ ("1.1.1.1" = "2.2.2.2") := by decide

/-- Claim C1, amended: re-registration of an existing username never fails
(HTTP 200); with the Redis store it refreshes status to online and lastSeen
to now but leaves the stored address unchanged and returns the record as it
was BEFORE the refresh; with the in-memory store it changes nothing and
returns the existing record; lookup therefore reflects the address of the
first register. -/
theorem claim1_amended (s : RedisStore) (m : MemStore) (u ip : String) (port now : Nat)
    (p q : PeerInfo) (hr : dictGet s.hashes u = some p) (hm : dictGet m u = some q) :
    (registerHandler redisOps s (some ⟨some u, some ip, some port⟩) now).1 = (200, some p)
    ∧ dictGet (registerHandler redisOps s (some ⟨some u, some ip, some port⟩) now).2.hashes u
        = some { p with status := "online", last_seen := now }
    ∧ registerHandler memOps m (some ⟨some u, some ip, some port⟩) now = ((200, some q), m) := by
  refine ⟨?_, ?_, ?_⟩ <;>
    simp [registerHandler, redisOps, memOps, hr, hm, dictGet_dictSet_self]

/-- Claim C1, witness for the amended statement at a concrete store. -/
theorem claim1_witness :
    (registerHandler redisOps ⟨[("bob", ⟨"bob", "1.1.1.1", 1, "online", 0, 0⟩)], ["bob"]⟩
        (some ⟨some "bob", some "9.9.9.9", some 9⟩) 77).1
      = (200, some ⟨"bob", "1.1.1.1", 1, "online", 0, 0⟩)
    ∧ dictGet (registerHandler redisOps ⟨[("bob", ⟨"bob", "1.1.1.1", 1, "online", 0, 0⟩)], ["bob"]⟩
        (some ⟨some "bob", some "9.9.9.9", some 9⟩) 77).2.hashes "bob"
      = some ⟨"bob", "1.1.1.1", 1, "online", 77, 0⟩
    ∧ registerHandler memOps [("bob", ⟨"bob", "1.1.1.1", 1, "online", 0, 0⟩)]
        (some ⟨some "bob", some "9.9.9.9", some 9⟩) 77
      = ((200, some ⟨"bob", "1.1.1.1", 1, "online", 0, 0⟩),
         [("bob", ⟨"bob", "1.1.1.1", 1, "online", 0, 0⟩)]) :=
  claim1_amended ⟨[("bob", ⟨"bob", "1.1.1.1", 1, "online", 0, 0⟩)], ["bob"]⟩
    [("bob", ⟨"bob", "1.1.1.1", 1, "online", 0, 0⟩)] "bob" "9.9.9.9" 9 77
    ⟨"bob", "1.1.1.1", 1, "online", 0, 0⟩ ⟨"bob", "1.1.1.1", 1, "online", 0, 0⟩
    (by decide) (by decide)

/-- Claim C2: heartbeat on an existing record refreshes it in BOTH stores.
The Redis branch does (second conjunct), but `update_peer_status` has no
in-memory branch, so with the in-memory store a heartbeat on the existing
record "alice" (last_seen 5) at time 2000 answers 200 and leaves the store
— in particular last_seen — completely unchanged, contradicting the claim
and the method's own docstring. -/
theorem claim2_bug_eval :
    heartbeatHandler memOps [("alice", ⟨"alice", "1.1.1.1", 1000, "online", 5, 5⟩)]
        (some ⟨some "alice"⟩) 2000
      = (200, [("alice", ⟨"alice", "1.1.1.1", 1000, "online", 5, 5⟩)])
    ∧ heartbeatHandler redisOps ⟨[("alice", ⟨"alice", "1.1.1.1", 1000, "online", 5, 5⟩)], ["alice"]⟩
        (some ⟨some "alice"⟩) 2000
      = (200, ⟨[("alice", ⟨"alice", "1.1.1.1", 1000, "online", 2000, 5⟩)], ["alice"]⟩) := by
  decide

/-- Claim C3: the two stores are NOT externally equivalent.  After
register("alice") followed by unregister("alice"), GET /peers with the
Redis store answers zero peers, while the in-memory store still lists alice
as online (unregister's `update_peer_status(username, 'offline')` has no
in-memory branch). -/
theorem claim3_bug_eval :
    peersHandler memOps
        (applyOps memOps [] [(ClientOp.reg "alice" "1.1.1.1" 1000, 0), (ClientOp.unreg "alice", 60)])
      = (200, 1, [⟨"alice", "1.1.1.1", 1000, "online", 0, 0⟩])
    ∧ peersHandler redisOps
        (applyOps redisOps ⟨[], []⟩ [(ClientOp.reg "alice" "1.1.1.1" 1000, 0), (ClientOp.unreg "alice", 60)])
      = (200, 0, []) := by decide

/-- Claim C4, counterexample: "alice" registers at time 0 and is never
heartbeaten; the 5-minute sweep runs at 300,...,1800 (at 1800 her age is
exactly 1800 s, not strictly greater, so she survives); at time 1801 her age
1801 s exceeds the 30-minute TTL, yet GET /peers still lists her — the
listing filters only on the stored status. -/
theorem claim4_counterexample :
    peersHandler memOps
        (cleanup_old_peers_sweep (cleanup_old_peers_sweep (cleanup_old_peers_sweep
          (cleanup_old_peers_sweep (cleanup_old_peers_sweep (cleanup_old_peers_sweep
            (applyOps memOps [] [(ClientOp.reg "alice" "1.1.1.1" 1000, 0)])
              300) 600) 900) 1200) 1500) 1800)
      = (200, 1, [⟨"alice", "1.1.1.1", 1000, "online", 0, 0⟩])
    ∧ 1801 - 0 > 1800 := by decide

/-- Claim C4, amended: the staleness exclusion is enforced by the periodic
sweep, not by the listing: immediately after a sweep at time `now`, every
peer listed by GET /peers has lastSeen within the 30-minute window (and is
marked online); between a record crossing the TTL and the next sweep it can
still be listed. -/
theorem claim4_amended (s : MemStore) (now : Nat) (q : PeerInfo)
    (hq : q ∈ (peersHandler memOps (cleanup_old_peers_sweep s now)).2.2) :
    now - q.last_seen ≤ 1800 ∧ q.status = "online" := by
  simp only [peersHandler, memOps, cleanup_old_peers_sweep, List.mem_filter,
    List.mem_map, Bool.not_eq_true', beq_iff_eq] at hq
  obtain ⟨⟨e, ⟨_, hfresh⟩, rfl⟩, hst⟩ := hq
  refine ⟨?_, hst⟩
  have := of_decide_eq_false hfresh
  omega

/-- Claim C4, witness for the amended statement. -/
theorem claim4_witness :
    100 - (PeerInfo.mk "alice" "1.1.1.1" 1000 "online" 0 0).last_seen ≤ 1800
    ∧ (PeerInfo.mk "alice" "1.1.1.1" 1000 "online" 0 0).status = "online" :=
  claim4_amended [("alice", ⟨"alice", "1.1.1.1", 1000, "online", 0, 0⟩)] 100
    ⟨"alice", "1.1.1.1", 1000, "online", 0, 0⟩ (by decide)

/-- Claim C8, counterexample: a request carrying no JSON body at all is
answered 500 (`get_json` raises inside the `try:` and the catch-all answers
500), not 400 as the claim states, on all three POST endpoints. -/
theorem claim8_counterexample :
    (registerHandler memOps ([] : MemStore) none 0).1.1 = 500
    ∧ ¬ (registerHandler memOps ([] : MemStore) none 0).1.1 = 400
    ∧ (heartbeatHandler memOps ([] : MemStore) none 0).1 = 500
    ∧ (unregisterHandler memOps ([] : MemStore) none 0).1 = 500 := by decide

/-- Claim C8, amended: a JSON object body lacking one of the required fields
is answered 400 on /register, and a body with no username on /heartbeat and
/unregister is answered 400; a request with no JSON body at all is answered
500 by the catch-all handler. -/
theorem claim8_amended {S : Type} (ops : StoreOps S) (s : S) (now : Nat) (b : RegisterBody)
    (hmiss : b.username = none ∨ b.ip_address = none ∨ b.port = none) :
    (registerHandler ops s (some b) now).1.1 = 400
    ∧ (registerHandler ops s none now).1.1 = 500
    ∧ (heartbeatHandler ops s (some ⟨none⟩) now).1 = 400
    ∧ (heartbeatHandler ops s none now).1 = 500
    ∧ (unregisterHandler ops s (some ⟨none⟩) now).1 = 400
    ∧ (unregisterHandler ops s none now).1 = 500 := by
  refine ⟨?_, rfl, rfl, rfl, rfl, rfl⟩
  rcases b with ⟨u, i, pt⟩
  rcases u with _ | u
  · rfl
  · rcases i with _ | i
    · rfl
    · rcases pt with _ | pt
      · rfl
      · rcases hmiss with h | h | h <;> simp at h

/-- Claim C8, witness for the amended statement. -/
theorem claim8_witness :
    (registerHandler memOps ([] : MemStore) (some ⟨none, some "1.1.1.1", some 1⟩) 0).1.1 = 400
    ∧ (registerHandler memOps ([] : MemStore) none 0).1.1 = 500
    ∧ (heartbeatHandler memOps ([] : MemStore) (some ⟨none⟩) 0).1 = 400
    ∧ (heartbeatHandler memOps ([] : MemStore) none 0).1 = 500
    ∧ (unregisterHandler memOps ([] : MemStore) (some ⟨none⟩) 0).1 = 400
    ∧ (unregisterHandler memOps ([] : MemStore) none 0).1 = 500 :=
  claim8_amended memOps [] 0 ⟨none, some "1.1.1.1", some 1⟩ (Or.inl rfl)

/-! ## Helper lemmas shared by several claims -/

theorem dictGet_ne_of_some_none {α : Type} (d : List (String × α)) {u u2 : String} {p : α}
    (h1 : dictGet d u = some p) (h2 : dictGet d u2 = none) : u ≠ u2 := by
  intro hh
  subst hh
  rw [h1] at h2
  simp at h2

theorem not_mem_keys_of_dictGet_none {α : Type} (d : List (String × α)) (k : String)
    (h : dictGet d k = none) : k ∉ d.map Prod.fst := by
  induction d with
  | nil => simp
  | cons e rest ih =>
    by_cases he : e.1 = k
    · simp [dictGet, he] at h
    · simp [dictGet, he] at h
      simp [Ne.symm he, ih h]

theorem filter_key_nil {α : Type} (d : List (String × α)) (k : String)
    (h : k ∉ d.map Prod.fst) : d.filter (fun e => e.1 == k) = [] := by
  induction d with
  | nil => simp
  | cons e rest ih =>
    have h1 : ¬ e.1 = k := fun hh => h (by rw [List.map_cons, hh]; exact List.mem_cons_self _ _)
    have h2 : k ∉ List.map Prod.fst rest :=
      fun hh => h (by rw [List.map_cons]; exact List.mem_cons_of_mem _ hh)
    simp [List.filter_cons, h1, ih h2]

theorem filter_key_dictSet {α : Type} (d : List (String × α)) (k : String) (v : α)
    (h : (d.map Prod.fst).Nodup) :
    (dictSet d k v).filter (fun e => e.1 == k) = [(k, v)] := by
  induction d with
  | nil => simp [dictSet]
  | cons e rest ih =>
    rw [List.map_cons, List.nodup_cons] at h
    by_cases he : e.1 = k
    · subst he
      simp [dictSet, List.filter_cons, filter_key_nil rest e.1 h.1]
    · simp [dictSet, he, List.filter_cons, ih h.2]

theorem redis_update_keeps_registered (r : RedisStore) (u u2 st : String) (now : Nat)
    (q : PeerInfo) (h : dictGet r.hashes u = some q) :
    (dictGet (redisOps.update_peer_status r u2 st now).hashes u).map PeerInfo.registered_at
      = some q.registered_at := by
  simp only [redisOps]
  cases hx : dictGet r.hashes u2 with
  | none => simp [hx, h]
  | some p =>
    by_cases he : u = u2
    · subst he
      rw [h] at hx
      obtain rfl : p = q := (Option.some.inj hx).symm
      by_cases hst : st = "online" <;> simp [h, hst, dictGet_dictSet_self]
    · by_cases hst : st = "online" <;>
        simp [hx, hst, dictGet_dictSet_ne _ _ _ _ he, h]

/-! ## Remaining registry claims -/

/-- Claim C9: `registered_at` is written only by `register_peer` at a
record's creation; every subsequent register, heartbeat or unregister
request leaves the field of every existing record unchanged, on both
stores. -/
theorem claim9_registered_at_set_once (m : MemStore) (r : RedisStore) (u : String)
    (p q : PeerInfo) (op : ClientOp) (now : Nat)
    (hm : dictGet m u = some p) (hr : dictGet r.hashes u = some q) :
    (dictGet (applyOp memOps m op now) u).map PeerInfo.registered_at = some p.registered_at
    ∧ (dictGet (applyOp redisOps r op now).hashes u).map PeerInfo.registered_at
        = some q.registered_at := by
  constructor
  · cases op with
    | reg u2 ip port =>
      cases hx : dictGet m u2 with
      | some e => simp [applyOp, registerHandler, memOps, hx, hm]
      | none =>
        have hne : u ≠ u2 := dictGet_ne_of_some_none m hm hx
        simp [applyOp, registerHandler, memOps, hx, dictGet_dictSet_ne _ _ _ _ hne, hm]
    | hb u2 =>
      by_cases hu : u2 = "" <;> simp [applyOp, heartbeatHandler, memOps, hu, hm]
    | unreg u2 =>
      by_cases hu : u2 = "" <;> simp [applyOp, unregisterHandler, memOps, hu, hm]
  · cases op with
    | reg u2 ip port =>
      cases hx : dictGet r.hashes u2 with
      | some e =>
        have hred : applyOp redisOps r (ClientOp.reg u2 ip port) now
            = redisOps.update_peer_status r u2 "online" now := by
          simp [applyOp, registerHandler, redisOps, hx]
        rw [hred]
        exact redis_update_keeps_registered r u u2 "online" now q hr
      | none =>
        have hne : u ≠ u2 := dictGet_ne_of_some_none r.hashes hr hx
        simp [applyOp, registerHandler, redisOps, hx, dictGet_dictSet_ne _ _ _ _ hne, hr]
    | hb u2 =>
      by_cases hu : u2 = ""
      · simp [applyOp, heartbeatHandler, hu, hr]
      · have hred : applyOp redisOps r (ClientOp.hb u2) now
            = redisOps.update_peer_status r u2 "online" now := by
          simp [applyOp, heartbeatHandler, hu]
        rw [hred]
        exact redis_update_keeps_registered r u u2 "online" now q hr
    | unreg u2 =>
      by_cases hu : u2 = ""
      · simp [applyOp, unregisterHandler, hu, hr]
      · have hred : applyOp redisOps r (ClientOp.unreg u2) now
            = redisOps.update_peer_status r u2 "offline" now := by
          simp [applyOp, unregisterHandler, hu]
        rw [hred]
        exact redis_update_keeps_registered r u u2 "offline" now q hr

/-- Claim C9, witness: a heartbeat at time 2000 on both stores leaves
registered_at = 5 for the existing record. -/
theorem claim9_witness :
    (dictGet (applyOp memOps [("alice", ⟨"alice", "1.1.1.1", 1000, "online", 5, 5⟩)]
        (ClientOp.hb "alice") 2000) "alice").map PeerInfo.registered_at
      = some (PeerInfo.mk "alice" "1.1.1.1" 1000 "online" 5 5).registered_at
    ∧ (dictGet (applyOp redisOps ⟨[("alice", ⟨"alice", "1.1.1.1", 1000, "online", 5, 5⟩)], ["alice"]⟩
        (ClientOp.hb "alice") 2000).hashes "alice").map PeerInfo.registered_at
      = some (PeerInfo.mk "alice" "1.1.1.1" 1000 "online" 5 5).registered_at :=
  claim9_registered_at_set_once [("alice", ⟨"alice", "1.1.1.1", 1000, "online", 5, 5⟩)]
    ⟨[("alice", ⟨"alice", "1.1.1.1", 1000, "online", 5, 5⟩)], ["alice"]⟩ "alice"
    ⟨"alice", "1.1.1.1", 1000, "online", 5, 5⟩ ⟨"alice", "1.1.1.1", 1000, "online", 5, 5⟩
    (ClientOp.hb "alice") 2000 (by decide) (by decide)

/-- Claim C10: every successful GET /peers response has `count` equal to the
length of the returned list, and every listed record has status "online",
for any storage implementation. -/
theorem claim10_peers_count_online {S : Type} (ops : StoreOps S) (s : S) :
    (peersHandler ops s).2.1 = (peersHandler ops s).2.2.length
    ∧ ∀ q, q ∈ (peersHandler ops s).2.2 → q.status = "online" := by
  refine ⟨rfl, ?_⟩
  intro q hq
  simp only [peersHandler, List.mem_filter, beq_iff_eq] at hq
  exact hq.2

/-- Claim C10, witness on a store holding one online and one offline record. -/
theorem claim10_witness :
    (peersHandler memOps [("alice", ⟨"alice", "1.1.1.1", 1, "online", 0, 0⟩),
        ("bob", ⟨"bob", "2.2.2.2", 2, "offline", 0, 0⟩)]).2.1
      = (peersHandler memOps [("alice", ⟨"alice", "1.1.1.1", 1, "online", 0, 0⟩),
        ("bob", ⟨"bob", "2.2.2.2", 2, "offline", 0, 0⟩)]).2.2.length
    ∧ (PeerInfo.mk "alice" "1.1.1.1" 1 "online" 0 0).status = "online" :=
  ⟨(claim10_peers_count_online memOps [("alice", ⟨"alice", "1.1.1.1", 1, "online", 0, 0⟩),
      ("bob", ⟨"bob", "2.2.2.2", 2, "offline", 0, 0⟩)]).1,
   (claim10_peers_count_online memOps [("alice", ⟨"alice", "1.1.1.1", 1, "online", 0, 0⟩),
      ("bob", ⟨"bob", "2.2.2.2", 2, "offline", 0, 0⟩)]).2 _ (by decide)⟩

/-! ## Claims about the peer node -/

/-- Claim C5: the session table is a dict keyed by the remote username, so
it never holds two sessions for one username (key list stays duplicate-free
under both the dial and the accept path); a dial towards an already-connected
username returns True and leaves the table and sockets untouched (reuse),
and an accepted incoming handshake for an already-known username replaces
the stored socket — the duplicate policy is reuse/replace, never a
ConnectionRejected caused by the duplicate. -/
theorem claim5_at_most_one_session (c : Connections) (target fromU : String)
    (found : Bool) (outcome : DialResult) (sid sid2 : Nat) (ua : Bool)
    (h : (c.map Prod.fst).Nodup) :
    ((connect_to_peer c target found outcome sid).2.1.map Prod.fst).Nodup
    ∧ ((handle_incoming_connection c fromU ua sid2).2.1.map Prod.fst).Nodup
    ∧ ((dictGet c target).isSome = true →
        connect_to_peer c target true outcome sid = (true, c, false))
    ∧ dictGet (handle_incoming_connection c fromU true sid2).2.1 fromU = some sid2 := by
  refine ⟨?_, ?_, ?_, ?_⟩
  · by_cases hf : found = false
    · simp [connect_to_peer, hf, h]
    · have hft : found = true := by cases found <;> simp_all
      cases hg : (dictGet c target).isSome
      · cases outcome <;> simp [connect_to_peer, hft, hg, h, dictSet_nodup_keys _ _ _ h]
      · simp [connect_to_peer, hft, hg, h]
  · cases ua <;> simp [handle_incoming_connection, h, dictSet_nodup_keys _ _ _ h]
  · intro hg
    simp [connect_to_peer, hg]
  · simp [handle_incoming_connection, dictGet_dictSet_self]

/-- Claim C5, witness: with "bob" already connected, dialing "bob" again is
a no-op returning True, and an accepted incoming handshake from "bob"
replaces the stored socket. -/
theorem claim5_witness :
    connect_to_peer [("bob", 1)] "bob" true DialResult.accepted 5 = (true, [("bob", 1)], false)
    ∧ dictGet (handle_incoming_connection [("bob", 1)] "bob" true 9).2.1 "bob" = some 9 :=
  ⟨(claim5_at_most_one_session [("bob", 1)] "bob" "bob" true DialResult.accepted 5 9 true
      (by decide)).2.2.1 (by decide),
   (claim5_at_most_one_session [("bob", 1)] "bob" "bob" true DialResult.accepted 5 9 true
      (by decide)).2.2.2⟩

/-- Claim C6, counterexample: the outbound flow terminating on a send error
(peer.py:370-372, `except ... break`) performs no cleanup: with session table
{bob -> socket 7} and the socket still open, the entry is still present and
the socket still open afterwards — the claim's "the terminating flow removes
the entry and closes the socket" fails for this flow. -/
theorem claim6_counterexample :
    send_messages_cleanup [("bob", 7)] "bob" false SendExit.sendError = ([("bob", 7)], false)
    ∧ dictGet [("bob", 7)] "bob" = some 7 := by decide

/-- Claim C6, amended: the inbound flow removes the session entry and closes
the socket on EVERY termination cause, and the outbound flow does so on the
user's `/exit` command; an outbound termination by send error or by its loop
condition performs no cleanup and leaves both the table entry and the socket
to the inbound flow.  `socket.close()` is idempotent, so the double close
that the two flows can perform never raises. -/
theorem claim6_amended (c : Connections) (u : String) (b : Bool) (cause : RecvExit) :
    dictGet (receive_messages_cleanup c u b cause).1 u = none
    ∧ (receive_messages_cleanup c u b cause).2 = true
    ∧ dictGet (send_messages_cleanup c u b SendExit.exitCommand).1 u = none
    ∧ (send_messages_cleanup c u b SendExit.exitCommand).2 = true
    ∧ send_messages_cleanup c u b SendExit.sendError = (c, b)
    ∧ socketClose (socketClose b) = socketClose b := by
  refine ⟨?_, rfl, ?_, rfl, rfl, rfl⟩ <;>
    simp [receive_messages_cleanup, send_messages_cleanup, socketClose, dictGet_dictDel_self]

/-- Claim C7: for a handshake that actually runs (the target was not already
in the initiator's table): if the responder rejects, the initiator closes
its socket and neither table changes; if the responder accepts, each side's
table holds exactly one entry keyed by the counterpart's username. -/
theorem claim7_handshake_outcome (ci cr : Connections) (initU respU : String)
    (ua : Bool) (sidI sidR : Nat)
    (hci : (ci.map Prod.fst).Nodup) (hcr : (cr.map Prod.fst).Nodup)
    (hnew : dictGet ci respU = none) :
    (ua = false →
      (connect_to_peer ci respU true (handle_incoming_connection cr initU ua sidR).1 sidI).2.2 = true
      ∧ (connect_to_peer ci respU true (handle_incoming_connection cr initU ua sidR).1 sidI).2.1 = ci
      ∧ (handle_incoming_connection cr initU ua sidR).2.1 = cr
      ∧ (handle_incoming_connection cr initU ua sidR).2.2 = true)
    ∧ (ua = true →
      ((connect_to_peer ci respU true (handle_incoming_connection cr initU ua sidR).1 sidI).2.1.filter
          (fun e => e.1 == respU)) = [(respU, sidI)]
      ∧ ((handle_incoming_connection cr initU ua sidR).2.1.filter
          (fun e => e.1 == initU)) = [(initU, sidR)]) := by
  constructor
  · intro hu
    subst hu
    simp [handle_incoming_connection, connect_to_peer, hnew]
  · intro hu
    subst hu
    simp [handle_incoming_connection, connect_to_peer, hnew,
      filter_key_dictSet _ _ _ hci, filter_key_dictSet _ _ _ hcr]

/-- Claim C7, witness: an accepted handshake between fresh "alice" (initiator)
and "bob" (responder) leaves exactly one session on each side, keyed by the
counterpart. -/
theorem claim7_witness :
    ((connect_to_peer ([] : Connections) "bob" true
        (handle_incoming_connection ([] : Connections) "alice" true 6).1 5).2.1.filter
      (fun e => e.1 == "bob")) = [("bob", 5)]
    ∧ ((handle_incoming_connection ([] : Connections) "alice" true 6).2.1.filter
      (fun e => e.1 == "alice")) = [("alice", 6)] :=
  (claim7_handshake_outcome [] [] "alice" "bob" true 5 6
    (by decide) (by decide) (by decide)).2 rfl
